import Mathlib

/-!
Verification development for the ChatPlug Discord bridge service
(`discord.go`).  The Go source is shallowly embedded: pure helpers become
Lean functions, the external collaborators (Discord HTTP API, hub client)
become explicit environment records whose fields model the result of each
call, and the per-message loop bodies become functions from that
environment to an outcome plus a trace of the externally visible calls.

Conventions used throughout:
  * an `Option` result models a Go call that can fail (`none` = non-nil
    error, or a nil pointer result);
  * a Go nil-pointer dereference is modelled as an explicit `panicked`
    outcome (the Go runtime panic terminates the process);
  * Go byte slices written to a sink are modelled as `List Nat`.
-/

/-! ### Go string primitives (`strings.HasPrefix`, `strings.Contains`, `path.Base`) -/

/-- Model of Go `strings.HasPrefix s pre`: `pre` is a prefix of `s`
(byte-for-byte; we compare character lists). -/
def goStartsWith (s pre : String) : Bool :=
  pre.data.isPrefixOf s.data

/-- Helper for `goContains`: does `sub` occur as a contiguous run inside `l`? -/
def hasSubstring : List Char → List Char → Bool
  | [], sub => sub.isEmpty
  | c :: t, sub => sub.isPrefixOf (c :: t) || hasSubstring t sub

/-- Model of Go `strings.Contains s sub` (case-sensitive substring test). -/
def goContains (s sub : String) : Bool :=
  hasSubstring s.data sub.data

/-- Model of Go `path.Base`: empty string gives ".", trailing slashes are
stripped, the part after the last "/" is returned, and a string of only
slashes gives "/". -/
def pathBase (s : String) : String :=
  if s = "" then "."
  else
    let stripped := (s.data.reverse.dropWhile (fun c => c = '/')).reverse
    let afterSlash := (stripped.reverse.takeWhile (fun c => ¬ c = '/')).reverse
    if afterSlash = [] then "/" else String.mk afterSlash

/-! ### Data model -/

/-- Discord webhook (the "proxy identity" of the spec): `discordgo.Webhook`
restricted to the fields the source reads (`ID`, `Token`, `Name`). -/
structure Webhook where
  id : String
  token : String
  name : String
deriving DecidableEq

/-- Bridge tag: the fixed display-name prefix from the source literals
`"ChatPlug "` at `discord.go:44,52,179`. -/
def bridgeTag : String := "ChatPlug "

/-- Recognition test applied to a listed webhook, from
`strings.HasPrefix(hook.Name, "ChatPlug ")` (`discord.go:44`). -/
def isRecognizedHook (hk : Webhook) : Bool :=
  goStartsWith hk.name bridgeTag

/-- Webhook-selection loop of `handleMessages` (`discord.go:40-48`): scan the
listing, overwriting `webhook` on every recognized hook; the result is the
final value (`none` when no hook is recognized). -/
def selectWebhook (ws : List Webhook) : Option Webhook :=
  ws.foldl (fun acc hk => if isRecognizedHook hk then some hk else acc) none

/-- Spec-side definition, written from the claim's words for comparison with
`selectWebhook`: the FIRST recognized webhook in listing order. -/
def firstRecognizedWebhook (ws : List Webhook) : Option Webhook :=
  ws.find? isRecognizedHook

/-! ### Hub message shape (`client-go` types, as read by `handleMessages`) -/

/-- Hub-side author of an outbound message (`msg.Message.Author`). -/
structure HubAuthor where
  username : String
  avatarURL : String
deriving DecidableEq

/-- Hub-side attachment reference (`msg.Message.Attachments[i]`). -/
structure HubAttachment where
  sourceURL : String
deriving DecidableEq

/-- Inner hub message (`msg.Message`). -/
structure HubInnerMessage where
  author : HubAuthor
  body : String
  attachments : List HubAttachment
deriving DecidableEq

/-- Hub message consumed by `handleMessages` from `MessagesChan`. -/
structure HubMessage where
  targetThreadID : String
  message : HubInnerMessage
deriving DecidableEq

/-- JSON envelope marshalled at `discord.go:56-60`; kept as a record rather
than a serialized string. -/
structure WebhookPayload where
  content : String
  username : String
  avatarURL : String
deriving DecidableEq

/-- Envelope built from a hub message (`discord.go:56-60`). -/
def payloadOf (msg : HubMessage) : WebhookPayload :=
  ⟨msg.message.body, msg.message.author.username, msg.message.author.avatarURL⟩

/-- One part of the multipart body built at `discord.go:65-96`:
`jsonField` is the `payload_json` form field; `filePart` is a file part
created by `CreateFormFile(formname, filename)` whose content is whatever
bytes were written into it. -/
inductive FormPart where
  | jsonField (name : String) (payload : WebhookPayload)
  | filePart (formname : String) (filename : String) (bytes : List Nat)
deriving DecidableEq

/-- Result of `DownloadFile` (`discord.go:260-280`). -/
inductive DLResult where
  | headErr
  | tooBig
  | getErr
  | ok (bytes : List Nat)
deriving DecidableEq

/-- True on every non-`ok` result. -/
def DLResult.isErr : DLResult → Bool
  | .ok _ => false
  | _ => true

/-- Proxy-creation call observed at the platform boundary
(`WebhookCreate(channelID, name, avatar)`, `discord.go:52`). -/
structure CreateCall where
  channelID : String
  name : String
  avatar : String
deriving DecidableEq

/-- Externally visible action of one `handleMessages` iteration. -/
inductive TraceEvent where
  | createCall (c : CreateCall)
  | postCall (hk : Webhook) (parts : List FormPart)
deriving DecidableEq

/-- Outcome of one `handleMessages` iteration: `completed status` when the
POST returned a response (any status — a non-2xx status is only logged);
`panicked` when the Go code dereferences a nil pointer (nil channel at
`channel.Name`, nil webhook at `webhook.ID`, or nil response at
`response.StatusCode`), which terminates the process. -/
inductive StepOutcome where
  | completed (status : Nat)
  | panicked
deriving DecidableEq

/-- Environment modelling the external collaborators of the outbound path.
`hooks` is the current result of `ChannelWebhooks`; `chanName` the result of
`Channel(...)` (`none` = nil channel); `createResult` gives id and token of
a successfully created webhook, `none` on failure (error ignored by the
source, leaving a nil webhook); `head`/`get` model the two HTTP calls of
`DownloadFile` (`head` returns the declared `ContentLength`); `postResult`
models `client.Do` on the multipart POST (`none` = error, nil response). -/
structure World where
  hooks : String → List Webhook
  chanName : String → Option String
  createResult : String → String → Option (String × String)
  head : String → Option Int
  get : String → Option (List Nat)
  postResult : String → List FormPart → Option Nat

/-- Fixed default icon image passed to `WebhookCreate` (`discord.go:52`). -/
def defaultIconURL : String := "https://i.imgur.com/l2QP9Go.png"

/-- Upload URL built at `discord.go:55`. -/
def urlOf (hk : Webhook) : String :=
  "https://discordapp.com/api/webhooks/" ++ hk.id ++ "/" ++ hk.token

/-- Model of `DownloadFile(url, dst)` (`discord.go:260-280`): HEAD probe
first; a declared length above 8 MiB refuses before the GET; otherwise the
GET body is streamed into the sink.  Second component: the bytes written to
the sink. -/
def DownloadFile (w : World) (url : String) : DLResult × List Nat :=
  match w.head url with
  | none => (.headErr, [])
  | some len =>
    if len > 8 * 1024 * 1024 then (.tooBig, [])
    else
      match w.get url with
      | none => (.getErr, [])
      | some body => (.ok body, body)

/-- Outcome of the webhook resolve-or-create phase (`discord.go:38-53`). -/
inductive ResolveOutcome where
  | panicNilChannel
  | resolved (hk : Option Webhook)
deriving DecidableEq

/-- World after a successful `WebhookCreate` on channel `cid`: the new
webhook is appended to that channel's listing. -/
def worldAfterCreate (w : World) (cid : String) (hk : Webhook) : World :=
  { w with hooks := fun c => if c = cid then w.hooks c ++ [hk] else w.hooks c }

/-- Resolve-or-create phase of `handleMessages` (`discord.go:38-53`; the
spec's ProxyIdentityResolver): list the channel's webhooks, select a
recognized one; otherwise fetch the channel (nil channel panics at
`channel.Name`) and call `WebhookCreate` with name `"ChatPlug " + channel.Name`
and the default icon.  A successful creation yields a webhook bearing the
requested name (platform behavior) and is appended to the channel's listing;
a failed creation leaves a Go nil webhook (`resolved none`).  Returns the
outcome, the updated world, and the creation calls made. -/
def resolveProxyIdentity (w : World) (cid : String) :
    ResolveOutcome × World × List CreateCall :=
  match selectWebhook (w.hooks cid) with
  | some hk => (.resolved (some hk), w, [])
  | none =>
    match w.chanName cid with
    | none => (.panicNilChannel, w, [])
    | some n =>
      let nm := bridgeTag ++ n
      let call : CreateCall := ⟨cid, nm, defaultIconURL⟩
      match w.createResult cid nm with
      | none => (.resolved none, w, [call])
      | some (i, t) => (.resolved (some ⟨i, t, nm⟩), worldAfterCreate w cid ⟨i, t, nm⟩, [call])

/-- Multipart body built at `discord.go:65-96`: first the `payload_json`
field, then one file part per attachment.  `CreateFormFile` (which writes
the part header) runs before `DownloadFile`, so every attachment
contributes a part; its content is whatever `DownloadFile` wrote into the
sink (empty when the download was refused or failed). -/
def buildParts (w : World) (payload : WebhookPayload) (atts : List HubAttachment) :
    List FormPart :=
  FormPart.jsonField "payload_json" payload ::
    atts.map (fun a =>
      let fn := pathBase a.sourceURL
      FormPart.filePart fn fn (DownloadFile w a.sourceURL).2)

/-- One iteration of the `handleMessages` consume loop (`discord.go:37-121`)
on message `msg`: resolve-or-create the webhook, build the multipart body,
POST it.  A nil channel, nil webhook (creation failed) or nil response
(POST failed) panics — the Go code dereferences each unconditionally. -/
def handleOneMessage (w : World) (msg : HubMessage) :
    StepOutcome × World × List TraceEvent :=
  match resolveProxyIdentity w msg.targetThreadID with
  | (.panicNilChannel, w1, calls) => (.panicked, w1, calls.map TraceEvent.createCall)
  | (.resolved none, w1, calls) => (.panicked, w1, calls.map TraceEvent.createCall)
  | (.resolved (some hk), w1, calls) =>
    let parts := buildParts w1 (payloadOf msg) msg.message.attachments
    let tr := calls.map TraceEvent.createCall ++ [TraceEvent.postCall hk parts]
    match w1.postResult (urlOf hk) parts with
    | none => (.panicked, w1, tr)
    | some st => (.completed st, w1, tr)

/-- The `handleMessages` consume loop over a finite prefix of `MessagesChan`:
processes messages in order, threading the world; a panic terminates the
process (second component `true`), leaving later messages unprocessed. -/
def handleMessages : World → List HubMessage → List (StepOutcome × List TraceEvent) × Bool
  | _, [] => ([], false)
  | w, m :: rest =>
    match handleOneMessage w m with
    | (.panicked, _, tr) => ([(.panicked, tr)], true)
    | (.completed st, w1, tr) =>
      let (rs, crashed) := handleMessages w1 rest
      ((.completed st, tr) :: rs, crashed)

/-! ### Inbound relay (`discordMessageCreate`, `discord.go:171-205`) -/

/-- Native attachment carried by a Discord message event
(`m.Attachments[i]`, fields `ID` and `URL`). -/
structure NativeAttachment where
  id : String
  url : String
deriving DecidableEq

/-- Native Discord message-create event, restricted to the fields the
handler reads.  `authorAvatarURLMedium` models `m.Author.AvatarURL("medium")`. -/
structure NativeEvent where
  authorID : String
  authorUsername : String
  authorAvatarURLMedium : String
  webhookID : String
  content : String
  id : String
  channelID : String
  attachments : List NativeAttachment
deriving DecidableEq

/-- Hub attachment input built at `discord.go:186-194`. -/
structure AttachmentInput where
  type : String
  originID : String
  sourceURL : String
deriving DecidableEq

/-- What `discordMessageCreate` does with an event: either nothing
(`discard`) or one `SendMessage` call to the hub with these arguments
(`discord.go:196-204`). -/
inductive InboundAction where
  | discard
  | sendMessage (content : String) (originID : String) (originThreadID : String)
      (username : String) (authorOriginID : String) (avatarURL : String)
      (attachments : List AttachmentInput)
deriving DecidableEq

/-- Environment of the inbound handler: `selfID` is `s.State.User.ID`;
`webhookLookup` models `ds.discordClient.Webhook(id)` collapsed to an
`Option` (`none` covers both a non-nil error and a nil webhook, the two
cases the source guards with `err == nil && webhook != nil`). -/
structure InboundEnv where
  selfID : String
  webhookLookup : String → Option Webhook

/-- Model of `discordMessageCreate` (`discord.go:171-205`): discard
self-authored events; discard events whose webhook resolves to a
recognized (bridge-tagged) webhook; otherwise map attachments to
`IMAGE`-typed inputs and forward via `SendMessage`. -/
def discordMessageCreate (env : InboundEnv) (m : NativeEvent) : InboundAction :=
  if m.authorID = env.selfID then .discard
  else
    match env.webhookLookup m.webhookID with
    | some hk =>
      if isRecognizedHook hk then .discard
      else
        .sendMessage m.content m.id m.channelID m.authorUsername m.authorID
          m.authorAvatarURLMedium
          (m.attachments.map (fun a => ⟨"IMAGE", a.id, a.url⟩))
    | none =>
      .sendMessage m.content m.id m.channelID m.authorUsername m.authorID
        m.authorAvatarURLMedium
        (m.attachments.map (fun a => ⟨"IMAGE", a.id, a.url⟩))

/-! ### Channel search (`Startup` search loop, `discord.go:153-168`) -/

/-- `discordgo.ChannelTypeGuildText` (first constant of the `ChannelType`
iota, value 0). -/
def channelTypeGuildText : Nat := 0

/-- Discord channel, restricted to the fields the search loop reads. -/
structure Channel where
  id : String
  name : String
  type : Nat
deriving DecidableEq

/-- Discord guild together with the result of `GuildChannels(guild.ID)`. -/
structure Guild where
  id : String
  name : String
  icon : String
  channels : List Channel
deriving DecidableEq

/-- Search result entry (`client.SearchThreadInput`). -/
structure SearchThreadInput where
  name : String
  iconURL : String
  originID : String
deriving DecidableEq

/-- Candidate test of the search loop (`discord.go:158`): query is a
substring of the channel name or of the guild name, and the channel is a
guild-text channel. -/
def searchPred (g : Guild) (q : String) (c : Channel) : Bool :=
  (goContains c.name q || goContains g.name q) && c.type == channelTypeGuildText

/-- Result entry built at `discord.go:159-163`. -/
def mkThreadResult (g : Guild) (c : Channel) : SearchThreadInput :=
  ⟨g.name ++ " - " ++ c.name,
   "http://cdn.discordapp.com/icons/" ++ g.id ++ "/" ++ g.icon ++ ".png",
   c.id⟩

/-- Body of the inner channel loop (`discord.go:157-165`): append the
result when fewer than 30 are collected and the candidate test passes. -/
def searchStep (g : Guild) (q : String) (acc : List SearchThreadInput) (c : Channel) :
    List SearchThreadInput :=
  if acc.length < 30 then
    if searchPred g q c then acc ++ [mkThreadResult g c] else acc
  else acc

/-- The full search scan for one query (`discord.go:154-166`): iterate
guilds in state order and each guild's channels in listing order. -/
def searchResults (guilds : List Guild) (q : String) : List SearchThreadInput :=
  guilds.foldl (fun acc g => g.channels.foldl (searchStep g q) acc) []

/-! ### Concrete demonstration worlds, events and messages -/

/-- Recognized webhook appearing first in a listing. -/
def demoHookA : Webhook := ⟨"100", "tokA", "ChatPlug alpha"⟩

/-- Recognized webhook appearing second in a listing. -/
def demoHookB : Webhook := ⟨"200", "tokB", "ChatPlug beta"⟩

/-- Recognized webhook used by the attachment scenarios. -/
def demoHookC : Webhook := ⟨"900", "tokC", "ChatPlug chan"⟩

/-- World for the two-attachment scenario: the channel lists `demoHookC`;
the HEAD probe on `a.png` declares 9 MiB (too large) while every other URL
declares 3 bytes; GET returns two bytes; the POST returns 204. -/
def demoWorldC2 : World :=
  ⟨fun _ => [demoHookC], fun _ => none, fun _ _ => none,
   fun u => if u = "http://files/a.png" then some (9 * 1024 * 1024) else some 3,
   fun _ => some [7, 8],
   fun _ _ => some 204⟩

/-- Hub message with two attachments, the first of which is refused. -/
def demoMsgC2 : HubMessage :=
  ⟨"chan-2", ⟨⟨"bob", "http://a/b.png"⟩, "hello",
    [⟨"http://files/a.png"⟩, ⟨"http://files/b.png"⟩]⟩⟩

/-- World in which channel `chan-3` has no webhook and `WebhookCreate`
fails (error discarded by the source, leaving a nil webhook). -/
def demoWorldC3 : World :=
  ⟨fun _ => [], fun _ => some "general", fun _ _ => none,
   fun _ => none, fun _ => none, fun _ _ => some 204⟩

/-- World in which a recognized webhook exists but `client.Do` on the POST
fails (nil response). -/
def demoWorldC3b : World :=
  ⟨fun _ => [demoHookC], fun _ => none, fun _ _ => none,
   fun _ => none, fun _ => none, fun _ _ => none⟩

/-- First queued hub message for the crash scenarios. -/
def demoMsgC3a : HubMessage := ⟨"chan-3", ⟨⟨"carol", "http://a/c.png"⟩, "first", []⟩⟩

/-- Second queued hub message, which the loop should still process. -/
def demoMsgC3b : HubMessage := ⟨"chan-3", ⟨⟨"dave", "http://a/d.png"⟩, "second", []⟩⟩

/-- World whose declared content length is one byte under the 8 MiB ceiling. -/
def demoWorldC4a : World :=
  ⟨fun _ => [], fun _ => none, fun _ _ => none,
   fun _ => some (8 * 1024 * 1024 - 1), fun _ => some [7], fun _ _ => none⟩

/-- World whose declared content length is one byte over the 8 MiB ceiling. -/
def demoWorldC4b : World :=
  ⟨fun _ => [], fun _ => none, fun _ _ => none,
   fun _ => some (8 * 1024 * 1024 + 1), fun _ => some [7], fun _ _ => none⟩

/-- World whose channel listing holds two recognized webhooks, `demoHookA`
first and `demoHookB` second. -/
def demoWorldC5 : World :=
  ⟨fun _ => [demoHookA, demoHookB], fun _ => some "general", fun _ _ => none,
   fun _ => none, fun _ => none, fun _ _ => some 204⟩

/-- Attachment-free hub message for the selection scenario. -/
def demoMsgC5 : HubMessage := ⟨"chan-5", ⟨⟨"alice", "http://a/av.png"⟩, "hi", []⟩⟩

/-- World whose channel listing already holds one recognized webhook. -/
def demoWorldC6 : World :=
  ⟨fun _ => [demoHookA], fun _ => none, fun _ _ => none,
   fun _ => none, fun _ => none, fun _ _ => none⟩

/-- World with no webhooks where `WebhookCreate` succeeds with id `500`. -/
def demoWorldC7 : World :=
  ⟨fun _ => [], fun _ => some "general", fun _ _ => some ("500", "tokE"),
   fun _ => none, fun _ => none, fun _ _ => some 204⟩

/-- Attachment-free hub message targeting channel `123`. -/
def demoMsgC7 : HubMessage := ⟨"123", ⟨⟨"eve", "http://a/e.png"⟩, "hi", []⟩⟩

/-- Guild with one matching text channel and one non-text channel. -/
def demoGuildC8 : Guild :=
  ⟨"g1", "Test Guild", "abc", [⟨"c42", "general-chat", 0⟩, ⟨"c43", "general-voice", 2⟩]⟩

/-- Inbound environment whose webhook lookup resolves to a bridge-tagged
webhook. -/
def demoEnvC1 : InboundEnv :=
  ⟨"self-id", fun _ => some ⟨"wh1", "tok", "ChatPlug general"⟩⟩

/-- Event carrying a webhook reference that resolves to the bridge's own
proxy identity. -/
def demoEventC1 : NativeEvent :=
  ⟨"user-1", "alice", "http://a/av.png", "wh1", "hello", "m1", "chan-1", []⟩

/-- Event authored by the bridge's own platform account. -/
def demoEventC9 : NativeEvent :=
  ⟨"self-id", "bridge", "http://a/av.png", "", "hello", "m2", "chan-1", []⟩

/-! ### Selection-loop lemmas -/

theorem foldl_select_eq_find_rev (p : Webhook → Bool) :
    ∀ (ws : List Webhook) (acc : Option Webhook),
      ws.foldl (fun a hk => if p hk then some hk else a) acc
        = ((ws.reverse.find? p).or acc)
  | [], acc => by simp
  | h :: t, acc => by
    simp only [List.foldl_cons, List.reverse_cons, List.find?_append,
      foldl_select_eq_find_rev p t]
    cases htf : t.reverse.find? p with
    | some x => simp [Option.or]
    | none =>
      cases hp : p h <;> simp [List.find?, hp, Option.or]

/-- The selection loop picks the last recognized webhook in listing order. -/
theorem selectWebhook_eq_find_rev (ws : List Webhook) :
    selectWebhook ws = ws.reverse.find? isRecognizedHook := by
  unfold selectWebhook
  rw [foldl_select_eq_find_rev isRecognizedHook ws none]
  cases ws.reverse.find? isRecognizedHook <;> simp [Option.or]

theorem selectWebhook_some_recognized {ws : List Webhook} {hk : Webhook}
    (h : selectWebhook ws = some hk) : isRecognizedHook hk = true := by
  rw [selectWebhook_eq_find_rev] at h
  exact List.find?_some h

theorem selectWebhook_eq_none_of_all_unrecognized {ws : List Webhook}
    (h : ∀ hk ∈ ws, isRecognizedHook hk = false) : selectWebhook ws = none := by
  rw [selectWebhook_eq_find_rev]
  exact List.find?_eq_none.mpr (fun x hx => by simp [h x (List.mem_reverse.mp hx)])

theorem selectWebhook_isSome_of_mem {ws : List Webhook} {hk : Webhook}
    (hmem : hk ∈ ws) (hrec : isRecognizedHook hk = true) :
    ∃ hk0, selectWebhook ws = some hk0 := by
  cases hsel : selectWebhook ws with
  | some hk0 => exact ⟨hk0, rfl⟩
  | none =>
    rw [selectWebhook_eq_find_rev] at hsel
    have := List.find?_eq_none.mp hsel hk (List.mem_reverse.mpr hmem)
    simp [hrec] at this

/-- A name built as the bridge tag followed by anything is recognized:
`"ChatPlug " ++ s` starts with `"ChatPlug "`. -/
theorem goStartsWith_tag_append (s : String) :
    goStartsWith (bridgeTag ++ s) bridgeTag = true := by
  have hdata : (bridgeTag ++ s).data = bridgeTag.data ++ s.data :=
    String.data_append bridgeTag s
  unfold goStartsWith
  rw [hdata, List.isPrefixOf_iff_prefix]
  exact List.prefix_append bridgeTag.data s.data

/-! ### Search-loop refinement lemmas -/

theorem take_30_append_full {α : Type} (acc x : List α) (h : acc.length = 30) :
    (acc ++ x).take 30 = acc := by
  rw [List.take_append_eq_append_take, h, Nat.sub_self]
  simp [List.take_of_length_le (le_of_eq h)]

theorem take_append_take {α : Type} (l m : List α) (n : Nat) :
    ((l.take n) ++ m).take n = (l ++ m).take n := by
  rw [List.take_append_eq_append_take, List.take_append_eq_append_take,
      List.take_take, List.length_take]
  have h1 : min n n = n := min_self n
  have h2 : n - min n l.length = n - l.length := by
    rcases Nat.le_total n l.length with h | h
    · simp [Nat.min_eq_left h, Nat.sub_eq_zero_of_le h]
    · simp [Nat.min_eq_right h]
  rw [h1, h2]

theorem foldl_searchStep_eq (g : Guild) (q : String) :
    ∀ (cs : List Channel) (acc : List SearchThreadInput), acc.length ≤ 30 →
      cs.foldl (searchStep g q) acc
        = (acc ++ (cs.filter (searchPred g q)).map (mkThreadResult g)).take 30
  | [], acc, h => by
    simp [List.take_of_length_le h]
  | c :: cs, acc, h => by
    by_cases h30 : acc.length < 30
    · cases hp : searchPred g q c with
      | true =>
        have hlen : (acc ++ [mkThreadResult g c]).length ≤ 30 := by
          simp only [List.length_append, List.length_singleton]; omega
        rw [List.foldl_cons,
            show searchStep g q acc c = acc ++ [mkThreadResult g c] by
              simp [searchStep, h30, hp],
            foldl_searchStep_eq g q cs _ hlen]
        simp [List.filter_cons, hp, List.append_assoc]
      | false =>
        rw [List.foldl_cons,
            show searchStep g q acc c = acc by simp [searchStep, h30, hp],
            foldl_searchStep_eq g q cs acc h]
        simp [List.filter_cons, hp]
    · have h30' : acc.length = 30 := by omega
      rw [List.foldl_cons,
          show searchStep g q acc c = acc by simp [searchStep, h30],
          foldl_searchStep_eq g q cs acc h,
          take_30_append_full _ _ h30', take_30_append_full _ _ h30']

theorem foldl_guilds_eq (q : String) :
    ∀ (gs : List Guild) (acc : List SearchThreadInput), acc.length ≤ 30 →
      gs.foldl (fun a g => g.channels.foldl (searchStep g q) a) acc
        = (acc ++ gs.flatMap
            (fun g => (g.channels.filter (searchPred g q)).map (mkThreadResult g))).take 30
  | [], acc, h => by simp [List.take_of_length_le h]
  | g :: gs, acc, h => by
    rw [List.foldl_cons, foldl_searchStep_eq g q g.channels acc h]
    have hlen :
        ((acc ++ (g.channels.filter (searchPred g q)).map (mkThreadResult g)).take 30).length
          ≤ 30 := by
      rw [List.length_take]; exact min_le_left _ _
    rw [foldl_guilds_eq q gs _ hlen, take_append_take]
    simp [List.flatMap_cons, List.append_assoc]

/-- Closed form of the search scan: the first 30 entries of the
guild-then-channel enumeration of matching text channels. -/
theorem searchResults_eq_take_30 (guilds : List Guild) (q : String) :
    searchResults guilds q
      = (guilds.flatMap
          (fun g => (g.channels.filter (searchPred g q)).map (mkThreadResult g))).take 30 := by
  unfold searchResults
  rw [foldl_guilds_eq q guilds [] (by simp)]
  simp

/-! ### DownloadFile sink lemmas -/

/-- Every run of `DownloadFile` either fails with an empty sink or succeeds
with the sink holding exactly the downloaded body. -/
theorem DownloadFile_sink (w : World) (url : String) :
    ((DownloadFile w url).1.isErr = true ∧ (DownloadFile w url).2 = [])
      ∨ (DownloadFile w url).1 = DLResult.ok (DownloadFile w url).2 := by
  cases hh : w.head url with
  | none => left; simp only [DownloadFile, hh]; refine ⟨?_, ?_⟩ <;> simp [DLResult.isErr]
  | some len =>
    by_cases hl : len > 8 * 1024 * 1024
    · left
      simp only [DownloadFile, hh]
      rw [if_pos hl]
      refine ⟨?_, ?_⟩ <;> simp [DLResult.isErr]
    · cases hg : w.get url with
      | none =>
        left
        simp only [DownloadFile, hh]
        rw [if_neg hl]
        simp only [hg]
        refine ⟨?_, ?_⟩ <;> simp [DLResult.isErr]
      | some body =>
        right
        simp only [DownloadFile, hh]
        rw [if_neg hl]
        simp only [hg]

theorem DownloadFile_isErr_sink (w : World) (url : String)
    (h : (DownloadFile w url).1.isErr = true) : (DownloadFile w url).2 = [] := by
  rcases DownloadFile_sink w url with ⟨-, h2⟩ | hok
  · exact h2
  · rw [hok] at h; simp [DLResult.isErr] at h

theorem DownloadFile_ok_sink (w : World) (url : String) (b : List Nat)
    (h : (DownloadFile w url).1 = DLResult.ok b) : (DownloadFile w url).2 = b := by
  rcases DownloadFile_sink w url with ⟨h1, -⟩ | hok
  · rw [h] at h1; simp [DLResult.isErr] at h1
  · rw [h] at hok
    injection hok with h3
    exact h3.symm

/-! ### handleOneMessage path lemmas -/

/-- When a recognized webhook is selected from the listing, one iteration
makes no creation call, leaves the world unchanged, and POSTs through the
selected webhook. -/
theorem handleOneMessage_selected (w : World) (msg : HubMessage) (hk : Webhook)
    (hsel : selectWebhook (w.hooks msg.targetThreadID) = some hk) :
    handleOneMessage w msg =
      (match w.postResult (urlOf hk)
          (buildParts w (payloadOf msg) msg.message.attachments) with
        | none => StepOutcome.panicked
        | some st => StepOutcome.completed st,
       w,
       [TraceEvent.postCall hk (buildParts w (payloadOf msg) msg.message.attachments)]) := by
  unfold handleOneMessage resolveProxyIdentity
  rw [hsel]
  cases hpost : w.postResult (urlOf hk)
      (buildParts w (payloadOf msg) msg.message.attachments) <;> simp [hpost]

/-- When no webhook is recognized and both the channel fetch and the
creation succeed, one iteration makes exactly one creation call (with the
tagged name and the default icon) and then POSTs through the newly created
webhook. -/
theorem handleOneMessage_created (w : World) (msg : HubMessage) (n i t : String)
    (hsel : selectWebhook (w.hooks msg.targetThreadID) = none)
    (hchan : w.chanName msg.targetThreadID = some n)
    (hcreate : w.createResult msg.targetThreadID (bridgeTag ++ n) = some (i, t)) :
    handleOneMessage w msg =
      (match (worldAfterCreate w msg.targetThreadID ⟨i, t, bridgeTag ++ n⟩).postResult
          (urlOf ⟨i, t, bridgeTag ++ n⟩)
          (buildParts (worldAfterCreate w msg.targetThreadID ⟨i, t, bridgeTag ++ n⟩)
            (payloadOf msg) msg.message.attachments) with
        | none => StepOutcome.panicked
        | some st => StepOutcome.completed st,
       worldAfterCreate w msg.targetThreadID ⟨i, t, bridgeTag ++ n⟩,
       [TraceEvent.createCall ⟨msg.targetThreadID, bridgeTag ++ n, defaultIconURL⟩,
        TraceEvent.postCall ⟨i, t, bridgeTag ++ n⟩
          (buildParts (worldAfterCreate w msg.targetThreadID ⟨i, t, bridgeTag ++ n⟩)
            (payloadOf msg) msg.message.attachments)]) := by
  unfold handleOneMessage resolveProxyIdentity
  simp only [hsel, hchan, hcreate]
  cases hpost : (worldAfterCreate w msg.targetThreadID ⟨i, t, bridgeTag ++ n⟩).postResult
      (urlOf ⟨i, t, bridgeTag ++ n⟩)
      (buildParts (worldAfterCreate w msg.targetThreadID ⟨i, t, bridgeTag ++ n⟩)
        (payloadOf msg) msg.message.attachments) <;> simp [hpost]

/-- A `resolved (some hk)` outcome of the resolver always carries a
recognized (bridge-tagged) webhook. -/
theorem resolveProxyIdentity_recognized {w : World} {cid : String} {hk : Webhook}
    {w1 : World} {calls : List CreateCall}
    (h : resolveProxyIdentity w cid = (ResolveOutcome.resolved (some hk), w1, calls)) :
    isRecognizedHook hk = true := by
  unfold resolveProxyIdentity at h
  cases hsel : selectWebhook (w.hooks cid) with
  | some hk0 =>
    rw [hsel] at h
    simp at h
    rw [← h.1]
    exact selectWebhook_some_recognized hsel
  | none =>
    rw [hsel] at h
    cases hch : w.chanName cid with
    | none => simp [hch] at h
    | some n =>
      cases hcr : w.createResult cid (bridgeTag ++ n) with
      | none => simp [hch, hcr] at h
      | some it =>
        obtain ⟨i, t⟩ := it
        simp [hch, hcr] at h
        rw [← h.1]
        unfold isRecognizedHook
        exact goStartsWith_tag_append n

/-! ### Claim theorems -/

/-- C1: for every native platform event whose webhook reference resolves
successfully to a webhook whose name starts with the bridge tag
`"ChatPlug "`, `discordMessageCreate` forwards nothing to the hub
(`SendMessage` is never invoked — the handler returns `discard`). -/
theorem c1_loop_suppression (env : InboundEnv) (m : NativeEvent) (hk : Webhook)
    (hres : env.webhookLookup m.webhookID = some hk)
    (hname : goStartsWith hk.name bridgeTag = true) :
    discordMessageCreate env m = InboundAction.discard := by
  unfold discordMessageCreate
  by_cases hself : m.authorID = env.selfID
  · rw [if_pos hself]
  · rw [if_neg hself, hres]
    simp [isRecognizedHook, hname]

/-- Witness for C1 at a concrete event and environment. -/
theorem c1_witness : discordMessageCreate demoEnvC1 demoEventC1 = InboundAction.discard :=
  c1_loop_suppression demoEnvC1 demoEventC1 ⟨"wh1", "tok", "ChatPlug general"⟩ rfl (by decide)

/-- C9: a native event whose author identity equals the bridge's own
platform account identity is never forwarded: `discordMessageCreate`
returns `discard`. -/
theorem c9_self_suppression (env : InboundEnv) (m : NativeEvent)
    (h : m.authorID = env.selfID) :
    discordMessageCreate env m = InboundAction.discard := by
  unfold discordMessageCreate
  rw [if_pos h]

/-- Witness for C9 at a concrete self-authored event. -/
theorem c9_witness : discordMessageCreate demoEnvC1 demoEventC9 = InboundAction.discard :=
  c9_self_suppression demoEnvC1 demoEventC9 rfl

/-- C4: assuming both HTTP calls succeed, `DownloadFile` fails with zero
bytes written to the sink if and only if the declared content length
strictly exceeds 8 MiB; the refusing branch returns before the GET, so no
download happens. -/
theorem c4_size_ceiling (w : World) (url : String) (len : Int) (body : List Nat)
    (hHead : w.head url = some len) (hGet : w.get url = some body) :
    (((DownloadFile w url).1.isErr = true ∧ (DownloadFile w url).2 = [])
      ↔ len > 8 * 1024 * 1024) := by
  by_cases hl : len > 8 * 1024 * 1024
  · have hdl : DownloadFile w url = (DLResult.tooBig, []) := by
      simp only [DownloadFile, hHead]
      rw [if_pos hl]
    rw [hdl]
    simp only [DLResult.isErr]
    simp
    omega
  · have hdl : DownloadFile w url = (DLResult.ok body, body) := by
      simp only [DownloadFile, hHead]
      rw [if_neg hl]
      simp only [hGet]
    rw [hdl]
    simp only [DLResult.isErr]
    simp
    omega

/-- Witness for C4: a source declaring 8 MiB plus one byte is refused with
an empty sink, while one declaring 8 MiB minus one byte is not refused. -/
theorem c4_witness :
    ((DownloadFile demoWorldC4b "http://files/big.bin").1.isErr = true
      ∧ (DownloadFile demoWorldC4b "http://files/big.bin").2 = [])
    ∧ ¬((DownloadFile demoWorldC4a "http://files/ok.bin").1.isErr = true
      ∧ (DownloadFile demoWorldC4a "http://files/ok.bin").2 = []) := by
  constructor
  · exact (c4_size_ceiling demoWorldC4b "http://files/big.bin"
      (8 * 1024 * 1024 + 1) [7] rfl rfl).mpr (by decide)
  · intro hcontra
    exact absurd ((c4_size_ceiling demoWorldC4a "http://files/ok.bin"
      (8 * 1024 * 1024 - 1) [7] rfl rfl).mp hcontra) (by decide)

/-- C5 (counterexample): with two recognized webhooks in the listing, the
selection loop keeps the LAST one, not the first: the first recognized
webhook is `demoHookA`, yet the send goes through `demoHookB`. -/
theorem c5_counterexample :
    firstRecognizedWebhook [demoHookA, demoHookB] = some demoHookA
    ∧ demoHookB ≠ demoHookA
    ∧ (handleOneMessage demoWorldC5 demoMsgC5).2.2
        = [TraceEvent.postCall demoHookB
            [FormPart.jsonField "payload_json" ⟨"hi", "alice", "http://a/av.png"⟩]] := by
  refine ⟨by decide, by decide, by decide⟩

/-- C5 (amended): when the listing contains at least one recognized
webhook, the resolver selects the LAST such webhook in listing order (here
characterized as the first in the reversed listing), makes no creation
call, and that webhook is the one the POST goes through. -/
theorem c5_amended (w : World) (msg : HubMessage) (hk : Webhook)
    (hfind : (w.hooks msg.targetThreadID).reverse.find? isRecognizedHook = some hk) :
    handleOneMessage w msg =
      (match w.postResult (urlOf hk)
          (buildParts w (payloadOf msg) msg.message.attachments) with
        | none => StepOutcome.panicked
        | some st => StepOutcome.completed st,
       w,
       [TraceEvent.postCall hk (buildParts w (payloadOf msg) msg.message.attachments)]) := by
  apply handleOneMessage_selected
  rw [selectWebhook_eq_find_rev]
  exact hfind

/-- Witness for the amended C5 at a concrete two-webhook listing. -/
theorem c5_witness :
    handleOneMessage demoWorldC5 demoMsgC5 =
      (match demoWorldC5.postResult (urlOf demoHookB)
          (buildParts demoWorldC5 (payloadOf demoMsgC5) demoMsgC5.message.attachments) with
        | none => StepOutcome.panicked
        | some st => StepOutcome.completed st,
       demoWorldC5,
       [TraceEvent.postCall demoHookB
          (buildParts demoWorldC5 (payloadOf demoMsgC5) demoMsgC5.message.attachments)]) :=
  c5_amended demoWorldC5 demoMsgC5 demoHookB (by decide)

/-- C6: resolving a proxy identity twice for the same channel while a
recognized webhook is already listed returns the same identity both times
and performs zero creation calls on either resolution. -/
theorem c6_proxy_idempotence (w : World) (cid : String)
    (h : ∃ hk ∈ w.hooks cid, isRecognizedHook hk = true) :
    (∃ hk0, (resolveProxyIdentity w cid).1 = ResolveOutcome.resolved (some hk0))
    ∧ (resolveProxyIdentity w cid).1
        = (resolveProxyIdentity (resolveProxyIdentity w cid).2.1 cid).1
    ∧ (resolveProxyIdentity w cid).2.2 = []
    ∧ (resolveProxyIdentity (resolveProxyIdentity w cid).2.1 cid).2.2 = [] := by
  obtain ⟨hk, hmem, hrec⟩ := h
  obtain ⟨hk0, hsel⟩ := selectWebhook_isSome_of_mem hmem hrec
  have h1 : resolveProxyIdentity w cid = (ResolveOutcome.resolved (some hk0), w, []) := by
    unfold resolveProxyIdentity
    rw [hsel]
  refine ⟨⟨hk0, ?_⟩, ?_, ?_, ?_⟩ <;> simp [h1]

/-- Witness for C6 at a concrete listing holding one recognized webhook. -/
theorem c6_witness :
    (∃ hk0, (resolveProxyIdentity demoWorldC6 "chan-6").1
        = ResolveOutcome.resolved (some hk0))
    ∧ (resolveProxyIdentity demoWorldC6 "chan-6").1
        = (resolveProxyIdentity (resolveProxyIdentity demoWorldC6 "chan-6").2.1 "chan-6").1
    ∧ (resolveProxyIdentity demoWorldC6 "chan-6").2.2 = []
    ∧ (resolveProxyIdentity
        (resolveProxyIdentity demoWorldC6 "chan-6").2.1 "chan-6").2.2 = [] :=
  c6_proxy_idempotence demoWorldC6 "chan-6" ⟨demoHookA, by decide, by decide⟩

/-- C7: for a message whose target channel lists no recognized webhook,
when the channel fetch and the creation succeed, exactly one creation call
is made — named `"ChatPlug "` ++ the channel's current name, with the fixed
default icon — and it precedes the POST, which goes through the newly
created webhook. -/
theorem c7_create_once (w : World) (msg : HubMessage) (n i t : String)
    (hnone : ∀ hk ∈ w.hooks msg.targetThreadID, isRecognizedHook hk = false)
    (hchan : w.chanName msg.targetThreadID = some n)
    (hcreate : w.createResult msg.targetThreadID (bridgeTag ++ n) = some (i, t)) :
    ∃ parts, (handleOneMessage w msg).2.2 =
      [TraceEvent.createCall ⟨msg.targetThreadID, bridgeTag ++ n, defaultIconURL⟩,
       TraceEvent.postCall ⟨i, t, bridgeTag ++ n⟩ parts] := by
  have hsel := selectWebhook_eq_none_of_all_unrecognized hnone
  rw [handleOneMessage_created w msg n i t hsel hchan hcreate]
  exact ⟨_, rfl⟩

/-- Witness for C7: channel `123` with no webhook triggers one creation
call named `ChatPlug general` before the POST. -/
theorem c7_witness :
    ∃ parts, (handleOneMessage demoWorldC7 demoMsgC7).2.2 =
      [TraceEvent.createCall ⟨"123", bridgeTag ++ "general", defaultIconURL⟩,
       TraceEvent.postCall ⟨"500", "tokE", bridgeTag ++ "general"⟩ parts] :=
  c7_create_once demoWorldC7 demoMsgC7 "general" "500" "tokE"
    (by intro hk hmem; simp [demoWorldC7] at hmem) rfl rfl

/-- C10: every webhook through which an iteration of the outbound loop
POSTs — whether selected from the listing or newly created — has a display
name starting with the bridge tag `"ChatPlug "`. -/
theorem c10_invariant (w : World) (msg : HubMessage) (hk : Webhook) (parts : List FormPart)
    (h : TraceEvent.postCall hk parts ∈ (handleOneMessage w msg).2.2) :
    goStartsWith hk.name bridgeTag = true := by
  rcases hres : resolveProxyIdentity w msg.targetThreadID with ⟨outcome, w1, calls⟩
  unfold handleOneMessage at h
  rw [hres] at h
  cases outcome with
  | panicNilChannel =>
    simp [List.mem_map] at h
  | resolved ohk =>
    cases ohk with
    | none => simp [List.mem_map] at h
    | some hk0 =>
      have hrec : isRecognizedHook hk0 = true := resolveProxyIdentity_recognized hres
      cases hpost : w1.postResult (urlOf hk0)
          (buildParts w1 (payloadOf msg) msg.message.attachments) with
      | none =>
        simp only [hpost] at h
        simp at h
        rw [h.1]
        exact hrec
      | some st =>
        simp only [hpost] at h
        simp at h
        rw [h.1]
        exact hrec

/-- Witness for C10: the webhook used for the two-attachment send carries
the bridge tag. -/
theorem c10_witness : goStartsWith demoHookC.name bridgeTag = true :=
  c10_invariant demoWorldC2 demoMsgC2 demoHookC
    [FormPart.jsonField "payload_json" ⟨"hello", "bob", "http://a/b.png"⟩,
     FormPart.filePart "a.png" "a.png" [],
     FormPart.filePart "b.png" "b.png" [7, 8]]
    (by decide)

/-- C2 (counterexample): with two attachments where the first download is
refused and the second succeeds, the POST still carries the JSON payload
and the second file part and the send completes — but the failed
attachment's part is NOT omitted: `CreateFormFile` wrote its part header
before the download was attempted, so an empty file part for `a.png`
remains in the multipart body. -/
theorem c2_counterexample :
    (handleOneMessage demoWorldC2 demoMsgC2).1 = StepOutcome.completed 204
    ∧ (handleOneMessage demoWorldC2 demoMsgC2).2.2
        = [TraceEvent.postCall demoHookC
            [FormPart.jsonField "payload_json" ⟨"hello", "bob", "http://a/b.png"⟩,
             FormPart.filePart "a.png" "a.png" [],
             FormPart.filePart "b.png" "b.png" [7, 8]]]
    ∧ FormPart.filePart "a.png" "a.png" []
        ∈ [FormPart.jsonField "payload_json"
             (⟨"hello", "bob", "http://a/b.png"⟩ : WebhookPayload),
           FormPart.filePart "a.png" "a.png" [],
           FormPart.filePart "b.png" "b.png" [7, 8]] := by
  refine ⟨by decide, by decide, by decide⟩

/-- C2 (amended): for a message with two attachments whose first download
fails (empty sink) and whose second succeeds, the iteration still
completes the POST with the JSON `payload_json` field and the second file
part, without aborting — and the failed attachment contributes an empty
file part (its header was written before the download), rather than being
omitted. -/
theorem c2_amended (w : World) (msg : HubMessage) (hk : Webhook)
    (a1 a2 : HubAttachment) (b2 : List Nat) (st : Nat)
    (hatts : msg.message.attachments = [a1, a2])
    (hsel : selectWebhook (w.hooks msg.targetThreadID) = some hk)
    (hfail : (DownloadFile w a1.sourceURL).1.isErr = true)
    (hok : (DownloadFile w a2.sourceURL).1 = DLResult.ok b2)
    (hpost : w.postResult (urlOf hk)
        [FormPart.jsonField "payload_json" (payloadOf msg),
         FormPart.filePart (pathBase a1.sourceURL) (pathBase a1.sourceURL) [],
         FormPart.filePart (pathBase a2.sourceURL) (pathBase a2.sourceURL) b2]
        = some st) :
    handleOneMessage w msg =
      (StepOutcome.completed st, w,
       [TraceEvent.postCall hk
         [FormPart.jsonField "payload_json" (payloadOf msg),
          FormPart.filePart (pathBase a1.sourceURL) (pathBase a1.sourceURL) [],
          FormPart.filePart (pathBase a2.sourceURL) (pathBase a2.sourceURL) b2]]) := by
  have hparts : buildParts w (payloadOf msg) msg.message.attachments =
      [FormPart.jsonField "payload_json" (payloadOf msg),
       FormPart.filePart (pathBase a1.sourceURL) (pathBase a1.sourceURL) [],
       FormPart.filePart (pathBase a2.sourceURL) (pathBase a2.sourceURL) b2] := by
    rw [hatts]
    simp [buildParts, DownloadFile_isErr_sink w a1.sourceURL hfail,
      DownloadFile_ok_sink w a2.sourceURL b2 hok]
  rw [handleOneMessage_selected w msg hk hsel, hparts, hpost]

/-- Witness for the amended C2 at the concrete two-attachment scenario. -/
theorem c2_witness :
    handleOneMessage demoWorldC2 demoMsgC2 =
      (StepOutcome.completed 204, demoWorldC2,
       [TraceEvent.postCall demoHookC
         [FormPart.jsonField "payload_json" (payloadOf demoMsgC2),
          FormPart.filePart (pathBase "http://files/a.png")
            (pathBase "http://files/a.png") [],
          FormPart.filePart (pathBase "http://files/b.png")
            (pathBase "http://files/b.png") [7, 8]]]) :=
  c2_amended demoWorldC2 demoMsgC2 demoHookC ⟨"http://files/a.png"⟩
    ⟨"http://files/b.png"⟩ [7, 8] 204 rfl (by decide) (by decide) (by decide) (by decide)

/-- C3 (code-bug evidence): when `WebhookCreate` fails, the source drops
the error and dereferences the nil webhook at `webhook.ID`; when
`client.Do` fails, it dereferences the nil response at
`response.StatusCode`.  Either way the iteration panics, the process
terminates (crash flag `true`), and the second queued message is never
processed — instead of dropping one message and continuing. -/
theorem c3_code_bug :
    handleMessages demoWorldC3 [demoMsgC3a, demoMsgC3b]
      = ([(StepOutcome.panicked,
           [TraceEvent.createCall ⟨"chan-3", "ChatPlug general", defaultIconURL⟩])],
         true)
    ∧ handleMessages demoWorldC3b [demoMsgC3a, demoMsgC3b]
      = ([(StepOutcome.panicked,
           [TraceEvent.postCall demoHookC
             [FormPart.jsonField "payload_json"
               ⟨"first", "carol", "http://a/c.png"⟩]])],
         true) := by
  refine ⟨by decide, by decide⟩

/-- C8: the search responder returns exactly the first 30 entries of the
guild-then-channel enumeration of text channels matched by a case-sensitive
substring test on the channel or guild name; hence it never returns more
than 30 results, and every result is a text channel's entry labelled
`"<guild> - <channel>"` with the channel's native id as `originID`. -/
theorem c8_search_contract (guilds : List Guild) (q : String) :
    searchResults guilds q
      = (guilds.flatMap
          (fun g => (g.channels.filter (searchPred g q)).map (mkThreadResult g))).take 30
    ∧ (searchResults guilds q).length ≤ 30
    ∧ ∀ r ∈ searchResults guilds q, ∃ g ∈ guilds, ∃ c ∈ g.channels,
        (goContains c.name q || goContains g.name q) = true
        ∧ c.type = channelTypeGuildText
        ∧ r = mkThreadResult g c := by
  refine ⟨searchResults_eq_take_30 guilds q, ?_, ?_⟩
  · rw [searchResults_eq_take_30, List.length_take]
    exact min_le_left _ _
  · intro r hr
    rw [searchResults_eq_take_30] at hr
    have hr2 := List.mem_of_mem_take hr
    rw [List.mem_flatMap] at hr2
    obtain ⟨g, hg, hrg⟩ := hr2
    rw [List.mem_map] at hrg
    obtain ⟨c, hc, hrc⟩ := hrg
    rw [List.mem_filter] at hc
    obtain ⟨hcmem, hpred⟩ := hc
    unfold searchPred at hpred
    rw [Bool.and_eq_true] at hpred
    obtain ⟨hcont, htype⟩ := hpred
    exact ⟨g, hg, c, hcmem, hcont, by simpa using htype, hrc.symm⟩

/-- Witness for C8: the example query from the spec returns the single
matching text channel of the demo guild, and the bound holds. -/
theorem c8_witness :
    (searchResults [demoGuildC8] "general").length ≤ 30
    ∧ searchResults [demoGuildC8] "general"
        = [⟨"Test Guild - general-chat",
            "http://cdn.discordapp.com/icons/g1/abc.png", "c42"⟩] :=
  ⟨(c8_search_contract [demoGuildC8] "general").2.1, by decide⟩
